import Mathlib

/-!
Shallow embedding of the SAP HDB (HANA SQL Command Network Protocol) client
in pysap/SAPHDB.py: the byte-level packet codec derived from the scapy
fields_desc declarations, the connection receive/close logic, and the
authentication method family.

Scapy field semantics embedded here (the fields_desc lists are declarative;
their build/dissection behaviour comes from scapy, the external library the
source delegates to):

* a numeric field of width w builds little-endian (fmt "<...") or big-endian
  (fmt "!..."), and dissection of a packet stops assigning fields as soon as
  the input is exhausted, leaving all remaining fields at their class
  defaults (Packet.do_dissect breaks on empty input); a field that starts on
  a non-empty input shorter than its width is a dissection error
  (struct.error), modelled as none;
* FieldLenField(name, None, length_of/count_of, adjust) builds the computed
  (adjusted) value when the stored value is None, and the stored value
  otherwise; a numeric default of None builds as 0;
* PacketListField(name, None, cls, count_from) dissects at most count
  packets, stopping early when the input is exhausted; nested packets are
  PacketNoPadded, whose leftover bytes are handed back to the enclosing list
  loop (via a scapy Padding layer);
* the Part field PadField(PacketListField("buffer", None), 8) zero-pads the
  built buffer to an 8-byte multiple; on dissection the inner list field has
  neither a class nor a bound, so it consumes the whole remaining input as
  one raw blob and the PadField afterwards strips nothing.

Bytes are lists of Nat (each byte < 256 by construction of the encoders);
machine integers are Nat/Int reduced explicitly modulo 256^w.
-/

/-- Little-endian build of a natural number on w bytes (value taken mod 256^w). -/
def encLE : Nat → Nat → List Nat
  | 0, _ => []
  | w + 1, v => v % 256 :: encLE w (v / 256)

/-- Little-endian dissection of w bytes; none when fewer than w bytes remain. -/
def decLE : Nat → List Nat → Option (Nat × List Nat)
  | 0, bs => some (0, bs)
  | _ + 1, [] => none
  | w + 1, b :: bs => (decLE w bs).map (fun x => (b + 256 * x.1, x.2))

/-- Value of a big-endian byte list. -/
def beVal (bs : List Nat) : Nat := bs.foldl (fun a b => 256 * a + b) 0

/-- Big-endian build on w bytes. -/
def encBE (w v : Nat) : List Nat := (encLE w v).reverse

/-- Big-endian dissection of w bytes. -/
def decBE (w : Nat) (bs : List Nat) : Option (Nat × List Nat) :=
  if w ≤ bs.length then some (beVal (bs.take w), bs.drop w) else none

/-- Two's-complement reading of an unsigned w-byte value. -/
def toSigned (w n : Nat) : Int :=
  if n < 256 ^ w / 2 then (n : Int) else (n : Int) - ((256 ^ w : Nat) : Int)

/-- Little-endian two's-complement build of a signed value on w bytes. -/
def encInt (w : Nat) (i : Int) : List Nat := encLE w (i % ((256 : Int) ^ w)).toNat

/-- Little-endian signed dissection. -/
def decIntLE (w : Nat) (bs : List Nat) : Option (Int × List Nat) :=
  (decLE w bs).map (fun x => (toSigned w x.1, x.2))

/-- Dissect one unsigned little-endian field: on empty input keep the field's
default (do_dissect break-on-empty), otherwise read exactly w bytes. -/
def dU (w dflt : Nat) (bs : List Nat) : Option (Nat × List Nat) :=
  match bs with
  | [] => some (dflt, [])
  | _ => decLE w bs

/-- Dissect one signed little-endian field with break-on-empty. -/
def dI (w : Nat) (dflt : Int) (bs : List Nat) : Option (Int × List Nat) :=
  match bs with
  | [] => some (dflt, [])
  | _ => decIntLE w bs

/-- Dissect an unsigned FieldLenField (default None): the value stays None on
break-on-empty, otherwise it is the wire value. -/
def dLenU (w : Nat) (bs : List Nat) : Option (Option Nat × List Nat) :=
  match bs with
  | [] => some (none, [])
  | _ => (decLE w bs).map (fun x => (some x.1, x.2))

/-- Dissect a signed FieldLenField (default None) with break-on-empty. -/
def dLenI (w : Nat) (bs : List Nat) : Option (Option Int × List Nat) :=
  match bs with
  | [] => some (none, [])
  | _ => (decIntLE w bs).map (fun x => (some x.1, x.2))

/-- Dissect one unsigned big-endian field with break-on-empty. -/
def dUBE (w dflt : Nat) (bs : List Nat) : Option (Nat × List Nat) :=
  match bs with
  | [] => some (dflt, [])
  | _ => decBE w bs

/-- Concatenation of built byte lists (PacketListField build). -/
def bytesConcat : List (List Nat) → List Nat
  | [] => []
  | b :: bs => b ++ bytesConcat bs

/-- Zero bytes needed to reach the next 8-byte boundary (PadField(.., 8)). -/
def pad8 (n : Nat) : Nat := (8 - n % 8) % 8

/-- ASCII bytes of a string (method names, client ids). -/
def strBytes (s : String) : List Nat := s.data.map Char.toNat

/-- Modelled from the spec: AdjustableFieldLenField (pysap/utils/fields.py is
not under src/).  Spec section 3: one length byte for values 0..245; a first
byte 0xF6 means a 16-bit little-endian length follows; 0xF7 a 32-bit
little-endian length. -/
def encAuthFieldLen (n : Nat) : List Nat :=
  if n ≤ 245 then [n]
  else if n ≤ 65535 then 0xF6 :: encLE 2 n
  else 0xF7 :: encLE 4 n

/-- Modelled from the spec: dissection of the variable-width length prefix;
direct one-byte values in 246..255 are reserved and rejected, and truncated
wide prefixes are rejected ("decoders must reject truncated prefixes"). -/
def decAuthFieldLen : List Nat → Option (Nat × List Nat)
  | [] => none
  | b :: bs =>
    if b = 0xF6 then decLE 2 bs
    else if b = 0xF7 then decLE 4 bs
    else if b ≤ 245 then some (b, bs)
    else none

/-- SAPHDBPartAuthenticationField: AdjustableFieldLenField "length" (default
None) + StrFixedLenField "value" of that length. -/
structure SAPHDBPartAuthenticationField where
  length : Option Nat := none
  value : List Nat := []
deriving DecidableEq

/-- Build of one authentication field: length prefix (auto-computed from the
value when the stored length is None) followed by the value packed to that
length (struct.pack "%is" semantics: zero-pad or truncate). -/
def SAPHDBPartAuthenticationField.enc (f : SAPHDBPartAuthenticationField) : List Nat :=
  let l := f.length.getD f.value.length
  encAuthFieldLen l ++ (f.value.take l ++ List.replicate (l - f.value.length) 0)

/-- Dissection of one authentication field (StrFixedLenField takes at most
the announced length, without error on short input). -/
def decAuthField (bs : List Nat) : Option (SAPHDBPartAuthenticationField × List Nat) :=
  (decAuthFieldLen bs).map (fun x => (⟨some x.1, x.2.take x.1⟩, x.2.drop x.1))

/-- SAPHDBPartAuthentication: FieldLenField "count" (fmt "<H", default None,
count_of auth_fields) + PacketListField "auth_fields" (count_from count). -/
structure SAPHDBPartAuthentication where
  count : Option Nat := none
  auth_fields : List SAPHDBPartAuthenticationField := []
deriving DecidableEq

def SAPHDBPartAuthentication.enc (p : SAPHDBPartAuthentication) : List Nat :=
  encLE 2 (p.count.getD p.auth_fields.length)
    ++ bytesConcat (p.auth_fields.map SAPHDBPartAuthenticationField.enc)

/-- PacketListField dissection loop with a count bound: the loop first stops
on exhausted input (while remain), then on the count. -/
def decAuthFieldsN : Nat → List Nat → Option (List SAPHDBPartAuthenticationField × List Nat)
  | _, [] => some ([], [])
  | 0, bs => some ([], bs)
  | n + 1, bs => do
    let (f, r) ← decAuthField bs
    let (fs, r2) ← decAuthFieldsN n r
    pure (f :: fs, r2)

def decAuthPart (bs : List Nat) : Option (SAPHDBPartAuthentication × List Nat) :=
  match bs with
  | [] => some (⟨none, []⟩, [])
  | _ => do
    let (c, r) ← decLE 2 bs
    let (fs, r2) ← decAuthFieldsN c r
    pure (⟨some c, fs⟩, r2)

/-- SAPHDBPart: 16-byte header (partkind "<b", partattributes "<b",
argumentcount "<h", bigargumentcount "<i", bufferlength FieldLenField "<i"
default None length_of buffer, buffersize "<i" default 2^17-32-24) followed
by the buffer padded to an 8-byte multiple. -/
structure SAPHDBPart where
  partkind : Int := 0
  partattributes : Int := 0
  argumentcount : Int := 0
  bigargumentcount : Int := 0
  bufferlength : Option Int := none
  buffersize : Int := 131016
  buffer : List Nat := []
deriving DecidableEq

def SAPHDBPart.enc (p : SAPHDBPart) : List Nat :=
  encInt 1 p.partkind ++ encInt 1 p.partattributes ++ encInt 2 p.argumentcount
    ++ encInt 4 p.bigargumentcount
    ++ encInt 4 (p.bufferlength.getD (p.buffer.length : Int))
    ++ encInt 4 p.buffersize
    ++ p.buffer ++ List.replicate (pad8 p.buffer.length) 0

/-- Part dissection.  The buffer field is PadField(PacketListField("buffer",
None), 8): the inner list field has no class and no bound, so it consumes
the whole remaining input as one raw blob and the PadField then strips
nothing; the dissected buffer therefore keeps the padding bytes and nothing
is left over for a following part. -/
def decSAPHDBPart (bs : List Nat) : Option (SAPHDBPart × List Nat) := do
  let (pk, r) ← dI 1 0 bs
  let (pa, r) ← dI 1 0 r
  let (ac, r) ← dI 2 0 r
  let (bac, r) ← dI 4 0 r
  let (bl, r) ← dLenI 4 r
  let (bsz, r) ← dI 4 131016 r
  pure (⟨pk, pa, ac, bac, bl, bsz, r⟩, [])

/-- SAPHDBSegment: 24-byte header whose trailing 11 bytes depend on
segmentkind (Request=1: messagetype/commit/commandoptions/reserved1;
Reply=2: reserved2/functioncode/reserved3; otherwise reserved4), followed by
the parts (PacketListField count_from noofparts).  segmentlength is a
FieldLenField "<i" (default None) over the built parts adjusted by +24;
noofparts a FieldLenField "<h" (default None) counting parts.  reserved1 and
reserved3 are big-endian LongFields, reserved4 an 11-byte StrFixedLenField
(default None, built as zero bytes). -/
structure SAPHDBSegment where
  segmentlength : Option Int := none
  segmentofs : Int := 0
  noofparts : Option Int := none
  segmentno : Int := 1
  segmentkind : Int := 1
  messagetype : Int := 0
  commit : Int := 0
  commandoptions : Int := 0
  reserved1 : Nat := 0
  reserved2 : Nat := 0
  functioncode : Int := 0
  reserved3 : Nat := 0
  reserved4 : List Nat := []
  parts : List SAPHDBPart := []
deriving DecidableEq

/-- The built parts payload of a segment (padded parts, concatenated). -/
def partsPayload (s : SAPHDBSegment) : List Nat :=
  bytesConcat (s.parts.map SAPHDBPart.enc)

/-- The kind-dependent trailing 11 bytes of a segment header (the
ConditionalField block). -/
def segCondChunk (s : SAPHDBSegment) : List Nat :=
  if s.segmentkind = 1 then
    encInt 1 s.messagetype ++ encInt 1 s.commit ++ encInt 1 s.commandoptions
      ++ encBE 8 s.reserved1
  else if s.segmentkind = 2 then
    encLE 1 s.reserved2 ++ encInt 2 s.functioncode ++ encBE 8 s.reserved3
  else
    s.reserved4.take 11 ++ List.replicate (11 - s.reserved4.length) 0

def SAPHDBSegment.enc (s : SAPHDBSegment) : List Nat :=
  encInt 4 (s.segmentlength.getD ((partsPayload s).length + 24 : Nat))
    ++ encInt 4 s.segmentofs
    ++ encInt 2 (s.noofparts.getD (s.parts.length : Int))
    ++ encInt 2 s.segmentno
    ++ encInt 1 s.segmentkind
    ++ segCondChunk s
    ++ partsPayload s

/-- Parts loop of a segment (count-bounded, input-exhaustion stops first;
each dissected part consumes the whole remaining input). -/
def decParts : Nat → List Nat → Option (List SAPHDBPart × List Nat)
  | _, [] => some ([], [])
  | 0, bs => some ([], bs)
  | n + 1, bs => do
    let (p, r) ← decSAPHDBPart bs
    let (ps, r2) ← decParts n r
    pure (p :: ps, r2)

def decSAPHDBSegment (bs : List Nat) : Option (SAPHDBSegment × List Nat) := do
  let (sl, r) ← dLenI 4 bs
  let (ofs, r) ← dI 4 0 r
  let (np, r) ← dLenI 2 r
  let (sn, r) ← dI 2 1 r
  let (sk, r) ← dI 1 1 r
  if sk = 1 then do
    let (mt, r) ← dI 1 0 r
    let (cm, r) ← dI 1 0 r
    let (co, r) ← dI 1 0 r
    let (r1, r) ← dUBE 8 0 r
    let (ps, r) ← decParts ((np.getD 0).toNat) r
    pure (⟨sl, ofs, np, sn, sk, mt, cm, co, r1, 0, 0, 0, [], ps⟩, r)
  else if sk = 2 then do
    let (r2, r) ← dU 1 0 r
    let (fc, r) ← dI 2 0 r
    let (r3, r) ← dUBE 8 0 r
    let (ps, r) ← decParts ((np.getD 0).toNat) r
    pure (⟨sl, ofs, np, sn, sk, 0, 0, 0, 0, r2, fc, r3, [], ps⟩, r)
  else do
    let r4 := r.take 11
    let (ps, r) ← decParts ((np.getD 0).toNat) (r.drop 11)
    pure (⟨sl, ofs, np, sn, sk, 0, 0, 0, 0, 0, 0, 0, r4, ps⟩, r)

/-- SAPHDB: 32-byte message header (sessionid "<q" default -1, packetcount
"<i" default 0, varpartlength FieldLenField "<I" default None length_of
segments, varpartsize "<I" default 2^17-32, noofsegm FieldLenField "<h"
default None count_of segments, packetoptions signed byte, reserved1
ByteField default None (built as 0), compressionvarpartlength "<I",
reserved2 big-endian IntField default None (built as 0)) followed by the
segments (PacketListField count_from noofsegm). -/
structure SAPHDB where
  sessionid : Int := -1
  packetcount : Int := 0
  varpartlength : Option Nat := none
  varpartsize : Nat := 131040
  noofsegm : Option Int := none
  packetoptions : Int := 0
  reserved1 : Nat := 0
  compressionvarpartlength : Nat := 0
  reserved2 : Nat := 0
  segments : List SAPHDBSegment := []
deriving DecidableEq

/-- The built segments payload of a packet. -/
def segPayload (p : SAPHDB) : List Nat :=
  bytesConcat (p.segments.map SAPHDBSegment.enc)

def SAPHDB.enc (p : SAPHDB) : List Nat :=
  encInt 8 p.sessionid ++ encInt 4 p.packetcount
    ++ encLE 4 (p.varpartlength.getD (segPayload p).length)
    ++ encLE 4 p.varpartsize
    ++ encInt 2 (p.noofsegm.getD (p.segments.length : Int))
    ++ encInt 1 p.packetoptions
    ++ encLE 1 p.reserved1
    ++ encLE 4 p.compressionvarpartlength
    ++ encBE 4 p.reserved2
    ++ segPayload p

/-- Segments loop of a packet (count-bounded, input-exhaustion stops first). -/
def decSegments : Nat → List Nat → Option (List SAPHDBSegment × List Nat)
  | _, [] => some ([], [])
  | 0, bs => some ([], bs)
  | n + 1, bs => do
    let (s, r) ← decSAPHDBSegment bs
    let (ss, r2) ← decSegments n r
    pure (s :: ss, r2)

def decSAPHDB (bs : List Nat) : Option (SAPHDB × List Nat) := do
  let (sid, r) ← dI 8 (-1) bs
  let (pc, r) ← dI 4 0 r
  let (vpl, r) ← dLenU 4 r
  let (vps, r) ← dU 4 131040 r
  let (ns, r) ← dLenI 2 r
  let (po, r) ← dI 1 0 r
  let (r1, r) ← dU 1 0 r
  let (cvpl, r) ← dU 4 0 r
  let (r2, r) ← dUBE 4 0 r
  let (segs, r) ← decSegments ((ns.getD 0).toNat) r
  pure (⟨sid, pc, vpl, vps, ns, po, r1, cvpl, r2, segs⟩, r)

/-- The 14-byte initialization request magic. -/
def initializationMagic : List Nat :=
  [0xff, 0xff, 0xff, 0xff, 0x04, 0x20, 0x00, 0x04, 0x01, 0x00, 0x00, 0x01, 0x01, 0x01]

/-- SAPHDBInitializationRequest: a single 14-byte StrFixedLenField whose
default is the magic. -/
structure SAPHDBInitializationRequest where
  initialization : List Nat := initializationMagic
deriving DecidableEq

def SAPHDBInitializationRequest.enc (p : SAPHDBInitializationRequest) : List Nat :=
  p.initialization.take 14 ++ List.replicate (14 - p.initialization.length) 0

def decSAPHDBInitializationRequest (bs : List Nat) :
    Option (SAPHDBInitializationRequest × List Nat) :=
  match bs with
  | [] => some (⟨initializationMagic⟩, [])
  | _ => some (⟨bs.take 14⟩, bs.drop 14)

/-- SAPHDBInitializationReply: product_major "<b", product_minor "!H",
protocol_major "<b", protocol_minor "!H", padding "!H". -/
structure SAPHDBInitializationReply where
  product_major : Int := 0
  product_minor : Nat := 0
  protocol_major : Int := 0
  protocol_minor : Nat := 0
  padding : Nat := 0
deriving DecidableEq

def SAPHDBInitializationReply.enc (p : SAPHDBInitializationReply) : List Nat :=
  encInt 1 p.product_major ++ encBE 2 p.product_minor
    ++ encInt 1 p.protocol_major ++ encBE 2 p.protocol_minor ++ encBE 2 p.padding

def decSAPHDBInitializationReply (bs : List Nat) :
    Option (SAPHDBInitializationReply × List Nat) := do
  let (pma, r) ← dI 1 0 bs
  let (pmi, r) ← dUBE 2 0 r
  let (ta, r) ← dI 1 0 r
  let (ti, r) ← dUBE 2 0 r
  let (pd, r) ← dUBE 2 0 r
  pure (⟨pma, pmi, ta, ti, pd⟩, r)

/-! ## Transport and connection model

The stream socket is modelled as the list of byte batches the peer delivers:
socket.recv(n) returns the currently available batch truncated to n bytes (a
single call, no loop — exactly what SAPHDBConnection.recv does in the
source).  A connection state holds an optional socket (None before connect
and after close_socket). -/

abbrev Chunks := List (List Nat)

/-- One socket.recv(n) call: at most n bytes from the currently available
batch; an already-read remainder of a batch stays available. -/
def sockRecv (n : Nat) : Chunks → List Nat × Chunks
  | [] => ([], [])
  | c :: cs => if c.length ≤ n then (c, cs) else (c.take n, c.drop n :: cs)

structure ConnState where
  streamSocket : Option Chunks
deriving DecidableEq

/-- SAPHDBConnection.is_connected: the stream socket is not None. -/
def isConnected (st : ConnState) : Bool := st.streamSocket.isSome

/-- SAPHDBConnection.close_socket: calls self._stream_socket.close() and sets
it to None.  When _stream_socket is already None (never connected, or
already closed), None.close() raises AttributeError. -/
def close_socket (st : ConnState) : Except String ConnState :=
  match st.streamSocket with
  | none => .error "AttributeError: NoneType object has no attribute close"
  | some _ => .ok ⟨none⟩

/-- SAPHDBConnection.recv: one socket recv(32) for the header, a dissection
of whatever arrived, then — if the dissected varpartlength is positive — one
socket recv(varpartlength) and a dissection of header plus payload.  When
varpartlength is zero the source evaluates header_raw + payload where
payload is still the str "" (its initial value) while header_raw is bytes,
which raises TypeError under Python 3 (setup.py targets python3). -/
def recvModel (chunks : Chunks) : Except String SAPHDB × Chunks :=
  let (headerRaw, st1) := sockRecv 32 chunks
  match decSAPHDB headerRaw with
  | none => (.error "scapy dissection error", st1)
  | some (header, _) =>
    match header.varpartlength with
    | none => (.error "TypeError: NoneType comparison", st1)
    | some l =>
      if 0 < l then
        let (payload, st2) := sockRecv l st1
        match decSAPHDB (headerRaw ++ payload) with
        | none => (.error "scapy dissection error", st2)
        | some (pkt, _) => (.ok pkt, st2)
      else
        (.error "TypeError: cannot concat str to bytes", st1)

/-- The outcome of the send-and-receive of the DISCONNECT request inside
SAPHDBConnection.close: either a socket.error or a dissected response. -/
inductive SrOutcome where
  | sockErr (msg : String)
  | reply (resp : SAPHDB)

/-- The DISCONNECT request built by SAPHDBConnection.close:
SAPHDB(segments=[SAPHDBSegment(messagetype=77)]). -/
def disconnect_request : SAPHDB := { segments := [{ messagetype := 77 }] }

/-- SAPHDBConnection.close after its is_connected guard: try sending the
DISCONNECT request and checking the first response segment (kind 2 and
functioncode 18), mapping socket errors to SAPHDBConnectionError; the
finally clause always runs close_socket, so every outcome leaves the socket
released.  An empty response raises IndexError at segments[0] (the finally
clause still runs).  Accessing functioncode on a non-Reply segment yields
the scapy class default 0. -/
def connClose (st : ConnState) (sr : SrOutcome) : Except String Unit × ConnState :=
  match st.streamSocket with
  | none => (.error "Connection already closed", st)
  | some _ =>
    match sr with
    | .sockErr e =>
      (.error ("Error closing the connection to the server (" ++ e ++ ")"), ⟨none⟩)
    | .reply resp =>
      match resp.segments.head? with
      | none => (.error "IndexError", ⟨none⟩)
      | some seg =>
        if seg.segmentkind ≠ 2 ∨ seg.functioncode ≠ 18 then
          (.error "Connection incorrectly closed", ⟨none⟩)
        else (.ok (), ⟨none⟩)

/-! ## Authentication method model -/

/-- The credential fields every SAPHDBAuthMethod stores (username may be
None because the JWT/SAML constructors pass their pid argument into the
username slot of the base constructor before overwriting it). -/
structure AuthMethodState where
  username : Option String
  pid : Option String
  hostname : Option String
deriving DecidableEq

/-- SAPHDBAuthMethod.__init__(username, pid=None, hostname=None). -/
def authMethodInit (username pid hostname : Option String) : AuthMethodState :=
  ⟨username, pid, hostname⟩

/-- SAPHDBAuthScramMethod.__init__ (also SCRAM-PBKDF2): passes username, pid
and hostname through to the base constructor in order. -/
def scramMethodInit (username : String) (pid hostname : Option String) : AuthMethodState :=
  authMethodInit (some username) pid hostname

/-- SAPHDBAuthSessionCookieMethod.__init__: same threading as SCRAM. -/
def sessionCookieMethodInit (username : String) (pid hostname : Option String) :
    AuthMethodState :=
  authMethodInit (some username) pid hostname

/-- SAPHDBAuthJWTMethod.__init__(username, jwt, pid, hostname): calls
super().__init__(pid, hostname), i.e. the base receives username:=pid and
pid:=hostname positionally (hostname stays None), then self.username is
overwritten with the real username. -/
def jwtMethodInit (username : String) ( _jwt : String) (pid hostname : Option String) :
    AuthMethodState :=
  { authMethodInit pid hostname none with username := some username }

/-- SAPHDBAuthSAMLMethod.__init__: identical mis-threading to JWT. -/
def samlMethodInit (username : String) ( _saml : String) (pid hostname : Option String) :
    AuthMethodState :=
  { authMethodInit pid hostname none with username := some username }

/-- Python truthiness of `x or dflt` on an optional string: None and the
empty string fall back to the default. -/
def pyOr (x : Option String) (dflt : String) : String :=
  match x with
  | none => dflt
  | some s => if s = "" then dflt else s

/-- SAPHDBAuthMethod.client_id: "<pid>@<hostname>" with pid defaulting to
the literal "pysap" and hostname to socket.gethostname() (passed here as
sysHostname). -/
def client_id (st : AuthMethodState) (sysHostname : String) : String :=
  pyOr st.pid "pysap" ++ "@" ++ pyOr st.hostname sysHostname

/-- SAPHDBAuthMethod.craft_authentication_response_part: an AUTHENTICATION
part (partkind 33, argumentcount 1) whose buffer is the authentication part
[username, METHOD, value]. -/
def craft_authentication_response_part (username method value : List Nat) : SAPHDBPart :=
  { partkind := 33, argumentcount := 1,
    buffer := SAPHDBPartAuthentication.enc ⟨none, [⟨none, username⟩, ⟨none, method⟩, ⟨none, value⟩]⟩ }

/-- SAPHDBAuthMethod.craft_authentication_request: one Request segment
(messagetype 65 AUTHENTICATE) around the same AUTHENTICATION part; all
length and count fields are left at None.  packetcount is left at its
default 0 — the source never sets it. -/
def craft_authentication_request (username method value : List Nat) : SAPHDB :=
  { segments := [{ messagetype := 65,
                   parts := [craft_authentication_response_part username method value] }] }

/-- The CONNECT packet built inside SAPHDBConnection.authenticate: one
Request segment (messagetype 66) with the authentication part and a CLIENTID
part (partkind 35).  packetcount again stays at the default 0. -/
def craft_connect_packet (auth_part : SAPHDBPart) (clientId : List Nat) : SAPHDB :=
  { segments := [{ messagetype := 66,
                   parts := [auth_part, { partkind := 35, buffer := clientId }] }] }

/-- Modelled from the spec: CLIENT_PROOF_SIZE of the SCRAM helpers in
pysap/utils/crypto.py (not under src/) is 32. -/
def CLIENT_PROOF_SIZE : Nat := 32

/-- SAPHDBAuthScramMethod.obtain_client_proof: re-parse auth_fields[1] of
the server response as a nested authentication part [salt, server_key] and
frame the scrambled proof as b"\x00\x01" + struct.pack('b', 32) + proof.
scramble_salt itself lives in pysap/utils/crypto.py (not under src/) and is
passed in as a function; the spec fixes its result at 32 bytes. -/
def obtainClientProof
    (scrambleSalt : List Nat → List Nat → List Nat → List Nat → List Nat)
    (password clientKey : List Nat) (ap : SAPHDBPartAuthentication) : Option (List Nat) :=
  match ap.auth_fields[1]? with
  | none => none
  | some f1 =>
    match decAuthPart f1.value with
    | none => none
    | some (mp, _) =>
      match mp.auth_fields[0]?, mp.auth_fields[1]? with
      | some s0, some s1 =>
        some ([0, 1] ++ encInt 1 (CLIENT_PROOF_SIZE : Int)
                ++ scrambleSalt password s0.value s1.value clientKey)
      | _, _ => none

/-- SAPHDBAuthScramPBKDF2SHA256Method.obtain_client_proof: the nested part is
[salt, server_key, rounds] with rounds unpacked as a big-endian 32-bit
integer (struct.unpack('>I', ...) requires exactly 4 bytes). -/
def obtainClientProofPBKDF2
    (scrambleSaltR : List Nat → List Nat → List Nat → List Nat → Nat → List Nat)
    (password clientKey : List Nat) (ap : SAPHDBPartAuthentication) : Option (List Nat) :=
  match ap.auth_fields[1]? with
  | none => none
  | some f1 =>
    match decAuthPart f1.value with
    | none => none
    | some (mp, _) =>
      match mp.auth_fields[0]?, mp.auth_fields[1]?, mp.auth_fields[2]? with
      | some s0, some s1, some s2 =>
        if s2.value.length = 4 then
          some ([0, 1] ++ encInt 1 (CLIENT_PROOF_SIZE : Int)
                  ++ scrambleSaltR password s0.value s1.value clientKey (beVal s2.value))
        else none
      | _, _, _ => none

/-- The dissection SAPHDBAuthScramMethod.authenticate applies to the server
response: SAPHDBPartAuthentication(auth_response.segments[0].parts[0].buffer[0]). -/
def respAuthPart (resp : SAPHDB) : Option SAPHDBPartAuthentication := do
  let seg ← resp.segments.head?
  let part ← seg.parts.head?
  let (ap, _) ← decAuthPart part.buffer
  pure ap

/-- SAPHDBAuthScramMethod.authenticate, after connection.sr returned resp:
check the echoed method name (auth_fields[0]) against METHOD; on mismatch
raise SAPHDBAuthenticationError without touching the socket; otherwise
compute the client proof and return the response part.  The connection
state is threaded to show the socket is never modified here. -/
def scramAuthenticateModel
    (scrambleSalt : List Nat → List Nat → List Nat → List Nat → List Nat)
    (username method password clientKey : List Nat)
    (st : ConnState) (resp : SAPHDB) : Except String SAPHDBPart × ConnState :=
  match respAuthPart resp with
  | none => (.error "IndexError", st)
  | some ap =>
    match ap.auth_fields.head? with
    | none => (.error "IndexError", st)
    | some f0 =>
      if f0.value ≠ method then
        (.error "Authentication method not supported on server", st)
      else
        match obtainClientProof scrambleSalt password clientKey ap with
        | none => (.error "IndexError", st)
        | some proof =>
          (.ok (craft_authentication_response_part username method proof), st)

/-- SAPHDBConnection.authenticate, after the CONNECT round trip returned
auth_response: if the first segment is an Error segment (kind 5) the socket
is closed via close_socket and SAPHDBAuthenticationError is raised (the
guard at the top of authenticate ensures the socket is present, so
close_socket succeeds and leaves None). -/
def connectAuthCheckModel (st : ConnState) (authResponse : SAPHDB) :
    Except String Unit × ConnState :=
  match authResponse.segments.head? with
  | none => (.error "IndexError", st)
  | some seg =>
    if seg.segmentkind = 5 then (.error "Authentication failed", ⟨none⟩)
    else (.ok (), st)

deriving instance DecidableEq for Except

/-! ## Concrete instances used to settle the claims -/

/-- A valid AUTHENTICATION part: one-byte buffer, consistent bufferlength. -/
def partBufOne : SAPHDBPart :=
  { partkind := 33, argumentcount := 1, bufferlength := some 1, buffer := [65] }

/-- What dissecting the build of partBufOne actually yields: the buffer has
absorbed the 7 padding bytes. -/
def partBufOneDissected : SAPHDBPart :=
  { partkind := 33, argumentcount := 1, bufferlength := some 1,
    buffer := [65, 0, 0, 0, 0, 0, 0, 0] }

/-- A fully explicit one-segment packet (Request AUTHENTICATE, no parts)
whose length and count fields all carry their consistent wire values. -/
def pktOneSeg : SAPHDB :=
  { varpartlength := some 24, noofsegm := some 1,
    segments := [{ segmentlength := some 24, noofparts := some 0, messagetype := 65 }] }

/-- The wire image of pktOneSeg: 32 header bytes plus one 24-byte segment. -/
def pktOneSegBytes : List Nat := pktOneSeg.enc

/-- The packet recvModel actually returns when the 32-byte header of
pktOneSeg arrives split 16/16: the second recv asks for varpartlength (24)
bytes, so the dissected "packet" ends 8 bytes into the segment and the
segment dissects with scapy defaults past its first two fields. -/
def pktOneSegMangled : SAPHDB :=
  { varpartlength := some 24, noofsegm := some 1,
    segments := [{ segmentlength := some 24, segmentofs := 0 }] }

/-- A 32-byte header announcing varpartlength 0 and no segments. -/
def pktZeroVarpart : SAPHDB := { varpartlength := some 0, noofsegm := some 0 }

/-- The SCRAM method constant as bytes. -/
def scramSha256Method : List Nat := strBytes "SCRAMSHA256"

/-- The buffer of the mismatching server reply: an authentication part
echoing SCRAMMD5 instead of SCRAMSHA256. -/
def respMismatchBuf : List Nat :=
  SAPHDBPartAuthentication.enc ⟨none, [⟨none, strBytes "SCRAMMD5"⟩, ⟨none, [1, 2]⟩]⟩

/-- A server response whose authentication part echoes SCRAMMD5 instead of
SCRAMSHA256. -/
def respMismatch : SAPHDB :=
  { segments := [{ parts := [{ partkind := 33, buffer := respMismatchBuf }] }] }

/-- A server response whose first segment is an Error segment (kind 5). -/
def respErrorSeg : SAPHDB := { segments := [{ segmentkind := 5 }] }

/-- A connected state with an idle socket. -/
def stConnected : ConnState := ⟨some []⟩

/-- A disconnect reply carrying a Reply segment with functioncode 18. -/
def respDisconnectOk : SAPHDB :=
  { segments := [{ segmentkind := 2, functioncode := 18 }] }

/-- A nested challenge [salt, server_key, rounds] as the server would send
it inside auth_fields[1]; rounds is the big-endian 32-bit value 15000. -/
def nestedChallenge : SAPHDBPartAuthentication :=
  ⟨none, [⟨none, [10, 11, 12, 13]⟩, ⟨none, [20, 21, 22, 23]⟩, ⟨none, [0, 0, 58, 152]⟩]⟩

/-- A server authentication part echoing the method and carrying the nested
challenge bytes in field 1. -/
def apChallenge : SAPHDBPartAuthentication :=
  ⟨none, [⟨none, scramSha256Method⟩, ⟨none, nestedChallenge.enc⟩]⟩

/-- A stand-in scramble_salt returning 32 fixed bytes. -/
def scrambleConst (_p _s _k _c : List Nat) : List Nat := List.replicate 32 9

/-- A stand-in PBKDF2 scramble_salt returning 32 fixed bytes. -/
def scrambleConstR (_p _s _k _c : List Nat) (_r : Nat) : List Nat := List.replicate 32 9

/-- The framed proof obtainClientProof produces from apChallenge with
scrambleConst. -/
def framedProofConst : List Nat := [0, 1, 32] ++ List.replicate 32 9

/-! ## General lemmas about the byte-level primitives -/

theorem length_encLE (w v : Nat) : (encLE w v).length = w := by
  induction w generalizing v with
  | zero => rfl
  | succ n ih => simp [encLE, ih]

theorem length_encInt (w : Nat) (i : Int) : (encInt w i).length = w := by
  simp [encInt, length_encLE]

theorem length_encBE (w v : Nat) : (encBE w v).length = w := by
  simp [encBE, length_encLE]

theorem decLE_encLE (w n : Nat) (r : List Nat) (h : n < 256 ^ w) :
    decLE w (encLE w n ++ r) = some (n, r) := by
  induction w generalizing n r with
  | zero =>
    have : n = 0 := by simpa using h
    subst this
    rfl
  | succ v ih =>
    have hdiv : n / 256 < 256 ^ v := by
      rw [Nat.div_lt_iff_lt_mul (by norm_num)]
      calc n < 256 ^ (v + 1) := h
        _ = 256 ^ v * 256 := by ring
    have hsplit : encLE (v + 1) n ++ r = n % 256 :: (encLE v (n / 256) ++ r) := by
      simp [encLE]
    rw [hsplit]
    show (decLE v (encLE v (n / 256) ++ r)).map (fun x => (n % 256 + 256 * x.1, x.2)) = some (n, r)
    rw [ih (n / 256) r hdiv]
    simp [Nat.mod_add_div]

theorem decIntLE_encInt_ofNat (w k : Nat) (r : List Nat) (h : k < 256 ^ w / 2) :
    decIntLE w (encInt w (k : Int) ++ r) = some ((k : Int), r) := by
  have hk : k < 256 ^ w := lt_of_lt_of_le h (Nat.div_le_self _ _)
  have hmod : (k : Int) % ((256 : Int) ^ w) = (k : Int) := by
    apply Int.emod_eq_of_lt (by positivity)
    exact_mod_cast hk
  have henc : encInt w (k : Int) = encLE w k := by
    simp [encInt, hmod]
  rw [henc, decIntLE, decLE_encLE w k r hk]
  simp [toSigned, h]

theorem decAuthFieldLen_encAuthFieldLen (n : Nat) (r : List Nat) (h : n < 256 ^ 4) :
    decAuthFieldLen (encAuthFieldLen n ++ r) = some (n, r) := by
  by_cases h1 : n ≤ 245
  · have e1 : n ≠ 0xF6 := by omega
    have e2 : n ≠ 0xF7 := by omega
    simp [encAuthFieldLen, decAuthFieldLen, h1, e1, e2]
  · by_cases h2 : n ≤ 65535
    · have hn : n < 256 ^ 2 := by omega
      simp [encAuthFieldLen, decAuthFieldLen, h1, h2, decLE_encLE 2 n r hn]
    · simp [encAuthFieldLen, decAuthFieldLen, h1, h2, decLE_encLE 4 n r h]

theorem drop_append_len (a b : List Nat) (n : Nat) (h : a.length = n) : (a ++ b).drop n = b := by
  induction a generalizing n with
  | nil =>
    simp at h
    subst h
    simp
  | cons x xs ih =>
    cases n with
    | zero => simp at h
    | succ m =>
      simp only [List.cons_append, List.drop_succ_cons]
      exact ih m (by simpa using h)

theorem decLE4_after (pre r : List Nat) (L n : Nat) (hn : pre.length = n) (hL : L < 256 ^ 4) :
    (decLE 4 ((pre ++ (encLE 4 L ++ r)).drop n)).map Prod.fst = some L := by
  rw [drop_append_len pre _ n hn, decLE_encLE _ _ _ hL]
  rfl

theorem decIntLE_after (pre r : List Nat) (k n w : Nat) (hn : pre.length = n)
    (hk : k < 256 ^ w / 2) :
    (decIntLE w ((pre ++ (encInt w (k : Int) ++ r)).drop n)).map Prod.fst = some (k : Int) := by
  rw [drop_append_len pre _ n hn, decIntLE_encInt_ofNat _ _ _ hk]
  rfl

/-- The SCRAM proof frame around any 32-byte scramble result: total length
35, leading bytes 00 01 20. -/
theorem framed_ok (x : List Nat) (hx : x.length = 32) :
    ([0, 1] ++ encInt 1 (CLIENT_PROOF_SIZE : Int) ++ x).length = 35
    ∧ ([0, 1] ++ encInt 1 (CLIENT_PROOF_SIZE : Int) ++ x).take 3 = [0, 1, 32]
    ∧ [0, 1] ++ encInt 1 (CLIENT_PROOF_SIZE : Int) ++ x = [0, 1, 32] ++ x := by
  have henc : encInt 1 (CLIENT_PROOF_SIZE : Int) = [32] := by decide
  rw [henc]
  refine ⟨by simp [hx], ?_, by simp⟩
  simp [List.take_succ_cons]

/-- Bytes 8..11 of any built packet whose packetcount value is 0 read back
as the little-endian signed value 0. -/
theorem packetcount_on_wire (p : SAPHDB) (h : p.packetcount = 0) :
    (decIntLE 4 (p.enc.drop 8)).map Prod.fst = some 0 := by
  have e : p.enc = encInt 8 p.sessionid ++ (encInt 4 ((0 : Nat) : Int)
      ++ (encLE 4 (p.varpartlength.getD (segPayload p).length)
        ++ (encLE 4 p.varpartsize
          ++ (encInt 2 (p.noofsegm.getD (p.segments.length : Int))
            ++ (encInt 1 p.packetoptions
              ++ (encLE 1 p.reserved1
                ++ (encLE 4 p.compressionvarpartlength
                  ++ (encBE 4 p.reserved2 ++ segPayload p)))))))) := by
    simp [SAPHDB.enc, h, List.append_assoc]
  rw [e, drop_append_len (encInt 8 p.sessionid) _ 8 (by simp [length_encInt]),
    decIntLE_encInt_ofNat 4 0 _ (by norm_num)]
  rfl

/-! ## Claims -/

/-- C1: the claim states that for every packet value upholding the section-3
invariants, dissecting the build yields a structurally equal value.  It
fails on SAPHDBPart: partBufOne carries a consistent bufferlength for its
one-byte buffer, yet dissecting its build returns a part whose buffer has
absorbed the 7 zero padding bytes (the buffer PacketListField has no length
bound, so the PadField strips nothing), which differs from partBufOne. -/
theorem C1_roundtrip_code_bug :
    partBufOne.bufferlength = some (partBufOne.buffer.length : Int)
    ∧ decSAPHDBPart partBufOne.enc = some (partBufOneDissected, [])
    ∧ partBufOneDissected ≠ partBufOne
    ∧ partBufOneDissected.buffer = partBufOne.buffer ++ List.replicate 7 0 := by
  decide

/-- C3: the claim states recv reads exactly 32 header bytes, looping on
short reads.  In the source each read is a single socket recv call: when the
32-byte header of pktOneSeg arrives in two 16-byte chunks, the header is
dissected from 16 bytes only (scapy fills the remaining header fields with
defaults), the second recv consumes varpartlength bytes that are really the
rest of the header plus part of the segment, and recv returns a mangled
packet while 16 bytes of the true packet are left unread on the socket —
although the full 56 bytes dissect to exactly pktOneSeg. -/
theorem C3_short_read_code_bug :
    decSAPHDB pktOneSegBytes = some (pktOneSeg, [])
    ∧ recvModel [pktOneSegBytes.take 16, pktOneSegBytes.drop 16]
        = (.ok pktOneSegMangled, [pktOneSegBytes.drop 40])
    ∧ pktOneSegMangled ≠ pktOneSeg
    ∧ pktOneSegBytes.drop 40 ≠ [] := by
  decide

/-- C10: the claim states that on varpartlength = 0 recv performs no second
socket read and returns the packet dissected from the 32 header bytes.  No
second read indeed happens (the trailing [7, 7] chunk is untouched), but
under Python 3 the source raises TypeError instead of returning the packet:
header_raw (bytes) is concatenated with payload, still the str "" — even
though the 32 header bytes dissect cleanly to pktZeroVarpart. -/
theorem C10_recv_zero_varpart_code_bug :
    pktZeroVarpart.enc.length = 32
    ∧ pktZeroVarpart.varpartlength = some 0
    ∧ decSAPHDB pktZeroVarpart.enc = some (pktZeroVarpart, [])
    ∧ recvModel [pktZeroVarpart.enc, [7, 7]]
        = (.error "TypeError: cannot concat str to bytes", [[7, 7]]) := by
  decide

/-- C4 counterexample: the claim states the socket is closed before the
AuthenticationError on every failure, including a method-name mismatch.  On
the mismatch path (SAPHDBAuthScramMethod.authenticate) the error is raised
with the connection state untouched: the socket stays open. -/
theorem C4_counterexample :
    scramAuthenticateModel scrambleConst [117] scramSha256Method [112] [99]
        stConnected respMismatch
      = (.error "Authentication method not supported on server", stConnected)
    ∧ isConnected stConnected = true := by
  decide

/-- C4 amended: only the Error-segment failure in
SAPHDBConnection.authenticate closes the socket before raising
AuthenticationError; the method-mismatch failure in the SCRAM method raises
with the socket left exactly as it was. -/
theorem C4_amended_socket_close (st : ConnState) (resp : SAPHDB) :
    (∀ seg, resp.segments.head? = some seg → seg.segmentkind = 5 →
        connectAuthCheckModel st resp = (.error "Authentication failed", ⟨none⟩))
    ∧ (∀ scr u m pw ck ap f0, respAuthPart resp = some ap →
        ap.auth_fields.head? = some f0 → f0.value ≠ m →
        scramAuthenticateModel scr u m pw ck st resp
          = (.error "Authentication method not supported on server", st)) := by
  constructor
  · intro seg hseg hk
    simp [connectAuthCheckModel, hseg, hk]
  · intro scr u m pw ck ap f0 hap hf0 hne
    simp [scramAuthenticateModel, hap, hf0, hne]

/-- C4 amended witness: both branches at concrete inputs. -/
theorem C4_amended_socket_close_witness :
    connectAuthCheckModel ⟨some [[1]]⟩ respErrorSeg = (.error "Authentication failed", ⟨none⟩)
    ∧ scramAuthenticateModel scrambleConst [117] scramSha256Method [112] [99]
        ⟨some [[1]]⟩ respMismatch
      = (.error "Authentication method not supported on server", ⟨some [[1]]⟩) :=
  ⟨(C4_amended_socket_close ⟨some [[1]]⟩ respErrorSeg).1 { segmentkind := 5 } (by decide)
      (by decide),
   (C4_amended_socket_close ⟨some [[1]]⟩ respMismatch).2 scrambleConst [117] scramSha256Method
      [112] [99] ⟨some 2, [⟨some 8, strBytes "SCRAMMD5"⟩, ⟨some 2, [1, 2]⟩]⟩
      ⟨some 8, strBytes "SCRAMMD5"⟩ (by decide) (by decide) (by decide)⟩

/-- C5 counterexample: the claim states two successive packets sent on one
connection never carry the same packetcount.  The source never sets
packetcount anywhere: the AUTHENTICATE request and the CONNECT request that
follow each other in the handshake both carry the default packetcount 0. -/
theorem C5_counterexample :
    (craft_authentication_request [117] scramSha256Method [99]).packetcount
      = (craft_connect_packet
          (craft_authentication_response_part [117] scramSha256Method [99]) [112]).packetcount
    ∧ (craft_authentication_request [117] scramSha256Method [99]).packetcount = 0 := by
  decide

/-- C7 counterexample: the claim states close_socket can be invoked from any
state without raising.  With no socket (never connected, or already closed)
the source evaluates None.close(), an AttributeError. -/
theorem C7_counterexample :
    close_socket ⟨none⟩ = .error "AttributeError: NoneType object has no attribute close" := by
  decide

/-- C7 amended: when a socket is present close_socket unconditionally
releases it and the connection reports not connected; with no socket it
raises AttributeError. -/
theorem C7_amended_close_socket (st : ConnState) :
    (st.streamSocket.isSome = true → close_socket st = .ok ⟨none⟩ ∧ isConnected ⟨none⟩ = false)
    ∧ (st.streamSocket = none →
        close_socket st = .error "AttributeError: NoneType object has no attribute close") := by
  obtain ⟨s⟩ := st
  cases s <;> simp [close_socket, isConnected]

/-- C7 amended witness: releasing a present socket at a concrete state. -/
theorem C7_amended_close_socket_witness :
    close_socket ⟨some [[1]]⟩ = .ok ⟨none⟩ ∧ isConnected ⟨none⟩ = false :=
  (C7_amended_close_socket ⟨some [[1]]⟩).1 (by decide)

/-- C6: the claim states every method constructed with explicit pid and
hostname yields client_id "<pid>@<hostname>".  True for the SCRAM and
SessionCookie constructors (which also default pid to "pysap" and hostname
to the system name), but the JWT and SAML constructors pass (pid, hostname)
into the (username, pid) slots of the base constructor, so with pid "123"
and hostname "host" the client_id is "host@<system hostname>" instead of
"123@host". -/
theorem C6_client_id_code_bug :
    client_id (jwtMethodInit "user" "tok" (some "123") (some "host")) "sys" = "host@sys"
    ∧ client_id (samlMethodInit "user" "assert" (some "123") (some "host")) "sys" = "host@sys"
    ∧ client_id (scramMethodInit "user" (some "123") (some "host")) "sys" = "123@host"
    ∧ client_id (scramMethodInit "user" none none) "sys" = "pysap@sys"
    ∧ client_id (sessionCookieMethodInit "user" (some "123") (some "host")) "sys" = "123@host"
    ∧ ("host@sys" : String) ≠ "123@host" := by
  decide

/-- C5 amended: the Connection keeps no packet counter and never sets
packetcount; every packet it crafts (AUTHENTICATE request, CONNECT request,
DISCONNECT request) carries the default packetcount 0, both in the value and
in bytes 8..11 of the built header, so successive packets on one connection
always carry the same packetcount. -/
theorem C5_amended_packetcount_constant (u m v cid : List Nat) (ap : SAPHDBPart) :
    (craft_authentication_request u m v).packetcount = 0
    ∧ (craft_connect_packet ap cid).packetcount = 0
    ∧ disconnect_request.packetcount = 0
    ∧ (decIntLE 4 ((craft_authentication_request u m v).enc.drop 8)).map Prod.fst = some 0
    ∧ (decIntLE 4 ((craft_connect_packet ap cid).enc.drop 8)).map Prod.fst = some 0 :=
  ⟨rfl, rfl, rfl,
   packetcount_on_wire (craft_authentication_request u m v) rfl,
   packetcount_on_wire (craft_connect_packet ap cid) rfl⟩

/-- C2: building a packet whose length and count fields were left at None
auto-computes them from the actual payload: the built varpartlength equals
the byte length of the built segment list, segmentlength the byte length of
the built parts plus 24, noofsegm and noofparts the respective list lengths,
bufferlength the unpadded buffer length, and an AuthField length prefix the
value length; each is read back from the wire bytes at its header offset. -/
theorem C2_length_autofill (p : SAPHDB) (s : SAPHDBSegment) (pt : SAPHDBPart)
    (f : SAPHDBPartAuthenticationField)
    (hp1 : p.varpartlength = none) (hp2 : p.noofsegm = none)
    (hs1 : s.segmentlength = none) (hs2 : s.noofparts = none)
    (hpt : pt.bufferlength = none) (hf : f.length = none)
    (h1 : (segPayload p).length < 256 ^ 4)
    (h2 : p.segments.length < 256 ^ 2 / 2)
    (h3 : (partsPayload s).length + 24 < 256 ^ 4 / 2)
    (h4 : s.parts.length < 256 ^ 2 / 2)
    (h5 : pt.buffer.length < 256 ^ 4 / 2)
    (h6 : f.value.length < 256 ^ 4) :
    (decLE 4 (p.enc.drop 12)).map Prod.fst = some (segPayload p).length
    ∧ (decIntLE 2 (p.enc.drop 20)).map Prod.fst = some (p.segments.length : Int)
    ∧ (decIntLE 4 s.enc).map Prod.fst = some (((partsPayload s).length + 24 : Nat) : Int)
    ∧ (decIntLE 2 (s.enc.drop 8)).map Prod.fst = some (s.parts.length : Int)
    ∧ (decIntLE 4 (pt.enc.drop 8)).map Prod.fst = some (pt.buffer.length : Int)
    ∧ (decAuthFieldLen f.enc).map Prod.fst = some f.value.length := by
  refine ⟨?_, ?_, ?_, ?_, ?_, ?_⟩
  · have e : p.enc = (encInt 8 p.sessionid ++ encInt 4 p.packetcount)
        ++ (encLE 4 (segPayload p).length
          ++ (encLE 4 p.varpartsize
            ++ (encInt 2 (p.noofsegm.getD (p.segments.length : Int))
              ++ (encInt 1 p.packetoptions
                ++ (encLE 1 p.reserved1
                  ++ (encLE 4 p.compressionvarpartlength
                    ++ (encBE 4 p.reserved2 ++ segPayload p))))))) := by
      simp [SAPHDB.enc, hp1, List.append_assoc]
    rw [e, drop_append_len _ _ 12 (by simp [length_encInt]), decLE_encLE _ _ _ h1]
    rfl
  · have e : p.enc = (encInt 8 p.sessionid
        ++ (encInt 4 p.packetcount
          ++ (encLE 4 (p.varpartlength.getD (segPayload p).length)
            ++ encLE 4 p.varpartsize)))
        ++ (encInt 2 ((p.segments.length : Nat) : Int)
          ++ (encInt 1 p.packetoptions
            ++ (encLE 1 p.reserved1
              ++ (encLE 4 p.compressionvarpartlength
                ++ (encBE 4 p.reserved2 ++ segPayload p))))) := by
      simp [SAPHDB.enc, hp2, List.append_assoc]
    rw [e, drop_append_len _ _ 20 (by simp [length_encInt, length_encLE]),
      decIntLE_encInt_ofNat 2 p.segments.length _ h2]
    rfl
  · have e : s.enc = encInt 4 (((partsPayload s).length + 24 : Nat) : Int)
        ++ (encInt 4 s.segmentofs
          ++ (encInt 2 (s.noofparts.getD (s.parts.length : Int))
            ++ (encInt 2 s.segmentno
              ++ (encInt 1 s.segmentkind
                ++ (segCondChunk s ++ partsPayload s))))) := by
      simp [SAPHDBSegment.enc, hs1, List.append_assoc]
    rw [e, decIntLE_encInt_ofNat 4 ((partsPayload s).length + 24) _ h3]
    rfl
  · have e : s.enc = (encInt 4 (s.segmentlength.getD ((partsPayload s).length + 24 : Nat))
        ++ encInt 4 s.segmentofs)
        ++ (encInt 2 ((s.parts.length : Nat) : Int)
          ++ (encInt 2 s.segmentno
            ++ (encInt 1 s.segmentkind
              ++ (segCondChunk s ++ partsPayload s)))) := by
      simp [SAPHDBSegment.enc, hs2, List.append_assoc]
    rw [e, drop_append_len _ _ 8 (by simp [length_encInt]),
      decIntLE_encInt_ofNat 2 s.parts.length _ h4]
    rfl
  · have e : pt.enc = (encInt 1 pt.partkind
        ++ (encInt 1 pt.partattributes
          ++ (encInt 2 pt.argumentcount ++ encInt 4 pt.bigargumentcount)))
        ++ (encInt 4 ((pt.buffer.length : Nat) : Int)
          ++ (encInt 4 pt.buffersize
            ++ (pt.buffer ++ List.replicate (pad8 pt.buffer.length) 0))) := by
      simp [SAPHDBPart.enc, hpt, List.append_assoc]
    rw [e, drop_append_len _ _ 8 (by simp [length_encInt]),
      decIntLE_encInt_ofNat 4 pt.buffer.length _ h5]
    rfl
  · have e : f.enc = encAuthFieldLen f.value.length ++ f.value := by
      simp [SAPHDBPartAuthenticationField.enc, hf]
    rw [e, decAuthFieldLen_encAuthFieldLen _ _ h6]
    rfl

/-- C2 witness: the auto-fill read back at concrete values (the default
packet, segment, part and auth field, all of whose length and count fields
are None). -/
theorem C2_length_autofill_witness :
    (decLE 4 ((({} : SAPHDB).enc).drop 12)).map Prod.fst = some (segPayload {}).length
    ∧ (decIntLE 2 ((({} : SAPHDB).enc).drop 20)).map Prod.fst
        = some ((({} : SAPHDB).segments.length : Nat) : Int)
    ∧ (decIntLE 4 (({} : SAPHDBSegment).enc)).map Prod.fst
        = some (((partsPayload {}).length + 24 : Nat) : Int)
    ∧ (decIntLE 2 ((({} : SAPHDBSegment).enc).drop 8)).map Prod.fst
        = some ((({} : SAPHDBSegment).parts.length : Nat) : Int)
    ∧ (decIntLE 4 ((({} : SAPHDBPart).enc).drop 8)).map Prod.fst
        = some ((({} : SAPHDBPart).buffer.length : Nat) : Int)
    ∧ (decAuthFieldLen (({} : SAPHDBPartAuthenticationField).enc)).map Prod.fst
        = some ({} : SAPHDBPartAuthenticationField).value.length :=
  C2_length_autofill {} {} {} {} rfl rfl rfl rfl rfl rfl (by decide) (by decide)
    (by decide) (by decide) (by decide) (by decide)

/-- C8: close sends the DISCONNECT request (messagetype 77) and checks the
reply; a first segment that is not a Reply (kind 2) with functioncode 18
raises ConnectionError "Connection incorrectly closed", a socket error maps
to the closing ConnectionError, and in every outcome the finally clause
releases the socket, after which the connection reports not connected. -/
theorem C8_close_behavior (st : ConnState) (sr : SrOutcome) (h : isConnected st = true) :
    disconnect_request.segments.map SAPHDBSegment.messagetype = [77]
    ∧ (connClose st sr).2 = ⟨none⟩
    ∧ isConnected (connClose st sr).2 = false
    ∧ (∀ resp seg, sr = .reply resp → resp.segments.head? = some seg →
        ((connClose st sr).1 = .error "Connection incorrectly closed"
          ↔ ¬(seg.segmentkind = 2 ∧ seg.functioncode = 18)))
    ∧ (∀ e, sr = .sockErr e →
        (connClose st sr).1 = .error ("Error closing the connection to the server (" ++ e ++ ")")) := by
  obtain ⟨sock⟩ := st
  cases sock with
  | none => simp [isConnected] at h
  | some c =>
    have h2 : (connClose ⟨some c⟩ sr).2 = ⟨none⟩ := by
      cases sr with
      | sockErr e => rfl
      | reply resp =>
        cases hh : resp.segments.head? with
        | none => simp [connClose, hh]
        | some seg =>
          by_cases hc : seg.segmentkind ≠ 2 ∨ seg.functioncode ≠ 18 <;>
            simp [connClose, hh, hc]
    refine ⟨by decide, h2, by rw [h2]; rfl, ?_, ?_⟩
    · intro resp seg hsr hseg
      subst hsr
      by_cases hc : seg.segmentkind = 2 ∧ seg.functioncode = 18
      · have hnot : ¬(seg.segmentkind ≠ 2 ∨ seg.functioncode ≠ 18) := by tauto
        simp [connClose, hseg, hnot, hc]
      · have hor : seg.segmentkind ≠ 2 ∨ seg.functioncode ≠ 18 := by tauto
        simp [connClose, hseg, hor, hc]
    · intro e hsr
      subst hsr
      rfl

/-- C8 witness: closing over a connected state with a correct disconnect
reply releases the socket and raises nothing. -/
theorem C8_close_behavior_witness :
    (connClose stConnected (.reply respDisconnectOk)).2 = ⟨none⟩
    ∧ (connClose stConnected (.reply respDisconnectOk)).1
        ≠ .error "Connection incorrectly closed" := by
  have h := C8_close_behavior stConnected (.reply respDisconnectOk) (by decide)
  refine ⟨h.2.1, ?_⟩
  have hiff := h.2.2.2.1 respDisconnectOk { segmentkind := 2, functioncode := 18 } rfl (by decide)
  intro hcontra
  exact (hiff.mp hcontra) (by decide)

/-- C9: for every password, salt, server key and client key, the client
proof returned by obtain_client_proof is the frame 00 01 20 (the size byte
being CLIENT_PROOF_SIZE = 32) followed by the bytes of scramble_salt, hence
35 bytes when scramble_salt returns its specified 32; the same framing holds
for the PBKDF2 variant with the server-supplied big-endian 32-bit rounds. -/
theorem C9_proof_framing
    (scr : List Nat → List Nat → List Nat → List Nat → List Nat)
    (scrR : List Nat → List Nat → List Nat → List Nat → Nat → List Nat)
    (password clientKey : List Nat) (ap : SAPHDBPartAuthentication)
    (hscr : ∀ pw salt sk ck, (scr pw salt sk ck).length = 32)
    (hscrR : ∀ pw salt sk ck rd, (scrR pw salt sk ck rd).length = 32) :
    (∀ pf, obtainClientProof scr password clientKey ap = some pf →
        pf.length = 35 ∧ pf.take 3 = [0, 1, 32]
          ∧ ∃ salt serverKey, pf = [0, 1, 32] ++ scr password salt serverKey clientKey)
    ∧ (∀ pf, obtainClientProofPBKDF2 scrR password clientKey ap = some pf →
        pf.length = 35 ∧ pf.take 3 = [0, 1, 32]
          ∧ ∃ salt serverKey rounds,
              pf = [0, 1, 32] ++ scrR password salt serverKey clientKey rounds) := by
  constructor
  · intro pf hpf
    unfold obtainClientProof at hpf
    cases h1 : ap.auth_fields[1]? with
    | none => simp [h1] at hpf
    | some f1 =>
      cases h2 : decAuthPart f1.value with
      | none => simp [h1, h2] at hpf
      | some mpr =>
        obtain ⟨mp, rest⟩ := mpr
        cases h3 : mp.auth_fields[0]? with
        | none => simp [h1, h2, h3] at hpf
        | some s0 =>
          cases h4 : mp.auth_fields[1]? with
          | none => simp [h1, h2, h3, h4] at hpf
          | some s1 =>
            simp only [h1, h2, h3, h4, Option.some.injEq] at hpf
            obtain ⟨hlen, hpre, heq⟩ :=
              framed_ok (scr password s0.value s1.value clientKey) (hscr _ _ _ _)
            subst hpf
            exact ⟨hlen, hpre, s0.value, s1.value, heq⟩
  · intro pf hpf
    unfold obtainClientProofPBKDF2 at hpf
    cases h1 : ap.auth_fields[1]? with
    | none => simp [h1] at hpf
    | some f1 =>
      cases h2 : decAuthPart f1.value with
      | none => simp [h1, h2] at hpf
      | some mpr =>
        obtain ⟨mp, rest⟩ := mpr
        cases h3 : mp.auth_fields[0]? with
        | none => simp [h1, h2, h3] at hpf
        | some s0 =>
          cases h4 : mp.auth_fields[1]? with
          | none => simp [h1, h2, h3, h4] at hpf
          | some s1 =>
            cases h5 : mp.auth_fields[2]? with
            | none => simp [h1, h2, h3, h4, h5] at hpf
            | some s2 =>
              simp only [h1, h2, h3, h4, h5] at hpf
              by_cases hl4 : s2.value.length = 4
              · rw [if_pos hl4] at hpf
                have hpf2 := Option.some.inj hpf
                obtain ⟨hlen, hpre, heq⟩ :=
                  framed_ok (scrR password s0.value s1.value clientKey (beVal s2.value))
                    (hscrR _ _ _ _ _)
                subst hpf2
                exact ⟨hlen, hpre, s0.value, s1.value, beVal s2.value, heq⟩
              · rw [if_neg hl4] at hpf
                simp at hpf

/-- C9 witness: the framing at a concrete challenge with a constant
32-byte scramble function, for both SCRAM variants. -/
theorem C9_proof_framing_witness :
    (framedProofConst.length = 35 ∧ framedProofConst.take 3 = [0, 1, 32]
      ∧ ∃ salt serverKey,
          framedProofConst = [0, 1, 32] ++ scrambleConst [112] salt serverKey [99])
    ∧ (framedProofConst.length = 35 ∧ framedProofConst.take 3 = [0, 1, 32]
      ∧ ∃ salt serverKey rounds,
          framedProofConst = [0, 1, 32] ++ scrambleConstR [112] salt serverKey [99] rounds) :=
  ⟨(C9_proof_framing scrambleConst scrambleConstR [112] [99] apChallenge
      (fun _ _ _ _ => by simp [scrambleConst]) (fun _ _ _ _ _ => by simp [scrambleConstR])).1
    framedProofConst (by decide),
   (C9_proof_framing scrambleConst scrambleConstR [112] [99] apChallenge
      (fun _ _ _ _ => by simp [scrambleConst]) (fun _ _ _ _ _ => by simp [scrambleConstR])).2
    framedProofConst (by decide)⟩
